import Mathlib

/-!
Verification of the CubicLog smart-metadata derivation engine.

This file gives a shallow embedding, in Lean 4, of the core of CubicLog
(`main.go`, v1.1.0): the pattern library, the text detectors, the
`deriveMetadata` priority cascade, header validation, auto-fill of the
`source` and `color` header fields, and the 24h error-rate fragment of the
statistics endpoint.  Each definition is translated directly from the Go
source; comments cite the Go function it embeds.

Modelling conventions:
  * Go strings are Lean `String`s (the inputs of interest are ASCII, so
    byte-wise `len`/`ToLower` agree with the character-wise Lean model);
  * the regular expressions used by the source are small and fixed, so each
    is embedded as a hand-rolled leftmost-match scanner with exactly the
    structure of the pattern;
  * Go maps that are only indexed by key are embedded as association lists
    in the literal order of the source; Go maps that are *iterated*
    (`detectSystemError`, `detectDatabaseIssue`, `detectBusinessLogic`) get
    an explicit iteration-order parameter, since Go's map iteration order is
    unspecified and randomized;
  * `float64` arithmetic in the statistics code is modelled by exact
    rational arithmetic with round-half-to-even formatting, which agrees
    with Go's `%.1f` on the values arising here;
  * the SQL row counts used by `handleStats` are modelled as list counts
    over stored entries carrying their persisted derived fields.
-/

/-! ## Basic Go string primitives -/

/-- Character-wise ASCII lowercasing, `strings.ToLower` for ASCII input. -/
def goToLower (s : String) : String := String.mk (s.toList.map Char.toLower)

/-- Character-wise ASCII uppercasing, `strings.ToUpper` for ASCII input. -/
def goToUpper (s : String) : String := String.mk (s.toList.map Char.toUpper)

/-- Does `needle` occur at the head of `hay`? -/
def listPrefixEq : List Char → List Char → Bool
  | [], _ => true
  | _ :: _, [] => false
  | a :: as, b :: bs => a == b && listPrefixEq as bs

/-- Does `needle` occur as a contiguous sublist of `hay`? -/
def listContainsSub (hay needle : List Char) : Bool :=
  match hay with
  | [] => listPrefixEq needle []
  | _ :: t => listPrefixEq needle hay || listContainsSub t needle

/-- The `strings.Contains s sub`. -/
def goContains (s sub : String) : Bool := listContainsSub s.toList sub.toList

/-- ASCII whitespace recognized by `unicode.IsSpace` (`strings.Fields`). -/
def goIsSpaceChar (c : Char) : Bool :=
  c == ' ' || c == '\t' || c == '\n' || c == Char.ofNat 11 || c == Char.ofNat 12 || c == '\r'

/-- Accumulator-based splitter behind `goFields`; words are collected in
reverse in `acc` and flushed at whitespace. -/
def goFieldsAux (acc : List Char) : List Char → List (List Char)
  | [] => if acc.isEmpty then [] else [acc.reverse]
  | c :: cs =>
    if goIsSpaceChar c then
      if acc.isEmpty then goFieldsAux [] cs else acc.reverse :: goFieldsAux [] cs
    else goFieldsAux (c :: acc) cs

/-- The `strings.Fields`: split around runs of whitespace. -/
def goFields (s : String) : List String := (goFieldsAux [] s.toList).map String.mk

/-- The `strings.Trim s cutset`: strip leading and trailing characters of the
cutset. -/
def goTrim (s : String) (cutset : List Char) : String :=
  String.mk ((((s.toList.dropWhile (cutset.contains ·)).reverse).dropWhile
    (cutset.contains ·)).reverse)

/-- First-match association-list lookup, embedding Go map indexing
`m[k]` (`ok` reported through `Option`). -/
def goMapGet : List (String × String) → String → Option String
  | [], _ => none
  | (k, v) :: rest, key => if k == key then some v else goMapGet rest key

/-- Go map indexing for the `map[string]int` threshold table, with Go's
zero-value default for a missing key. -/
def goMapGetIntD : List (String × Int) → String → Int → Int
  | [], _, d => d
  | (k, v) :: rest, key, d => if k == key then v else goMapGetIntD rest key d

/-- Go map indexing for the `map[string]bool` color table, with `false` as
the zero-value default for a missing key. -/
def goMapGetBoolD : List (String × Bool) → String → Bool → Bool
  | [], _, d => d
  | (k, v) :: rest, key, d => if k == key then v else goMapGetBoolD rest key d

/-- The `strconv.Atoi` restricted to the all-digit strings produced by the
status-code extractor; Go's error case (any non-digit) yields 0, which is
what the ignored-error call site sees. -/
def goAtoi (s : String) : Int :=
  if s.toList ≠ [] ∧ s.toList.all Char.isDigit then
    (s.toList.foldl (fun n c => 10 * n + (c.toNat - 48)) 0 : Nat)
  else 0

/-! ## Pattern library (main.go lines 62-181), in source literal order -/

/-- The `httpStatusSeverity` (map, only ever indexed by key). -/
def httpStatusSeverityList : List (String × String) :=
  [("200", "success"), ("201", "success"), ("202", "success"), ("204", "success"),
   ("301", "info"), ("302", "info"), ("304", "info"),
   ("400", "warning"), ("401", "error"), ("403", "error"), ("404", "warning"),
   ("408", "warning"), ("409", "warning"), ("429", "warning"),
   ("500", "error"), ("501", "error"), ("502", "error"), ("503", "critical"),
   ("504", "critical"), ("507", "critical"), ("511", "error")]

/-- The `errorKeywords`. -/
def errorKeywordsList : List String :=
  ["error", "failed", "failure", "fatal", "critical", "crash",
   "exception", "panic", "abort", "aborted", "refused", "denied",
   "reject", "rejected", "timeout", "timed out", "unavailable",
   "unreachable", "invalid", "corrupt", "corrupted", "broken",
   "violation", "exceeded", "overflow", "underflow", "leak",
   "died", "dying", "dump", "dumped", "fault", "faulted",
   "kill", "killed", "terminate", "terminated", "segfault",
   "segmentation", "core dump", "stack overflow", "out of memory",
   "oom", "cannot", "could not", "unable", "impossible"]

/-- The `warningKeywords`. -/
def warningKeywordsList : List String :=
  ["warning", "warn", "deprecated", "deprecation", "slow",
   "slower", "delay", "delayed", "lag", "lagging", "retry",
   "retrying", "retried", "pending", "blocked", "blocking",
   "queue full", "high load", "degraded", "flaky", "unstable",
   "intermittent", "occasional", "sometimes", "timeout soon"]

/-- The `successKeywords`. -/
def successKeywordsList : List String :=
  ["success", "successful", "successfully", "succeeded", "complete",
   "completed", "done", "finished", "processed", "created",
   "updated", "saved", "stored", "published", "deployed",
   "approved", "accepted", "validated", "verified", "confirmed",
   "established", "connected", "ready", "available", "online",
   "restored", "recovered", "fixed", "resolved", "passed",
   "ok", "okay", "working", "operational", "healthy"]

/-- The `debugKeywords`. -/
def debugKeywordsList : List String :=
  ["debug", "debugging", "trace", "tracing", "verbose",
   "entering", "entered", "exiting", "exited", "calling",
   "called", "executing", "executed", "invoking", "invoked",
   "beginning", "starting", "stopping", "ended"]

/-- The `systemErrorCodes`; the list order is the literal order of the Go map.
The map is *iterated* by `detectSystemError`, so the order actually used at
runtime is unspecified: detectors below take the order as a parameter. -/
def systemErrorCodesList : List (String × String) :=
  [("ECONNREFUSED", "error"), ("ETIMEDOUT", "error"), ("ENOTFOUND", "error"),
   ("ECONNRESET", "error"), ("EPIPE", "error"), ("EACCES", "error"),
   ("ENOENT", "warning"), ("EISDIR", "error"), ("EMFILE", "critical"),
   ("ENOMEM", "critical"), ("ENOSPC", "critical"), ("EIO", "critical"),
   ("EROFS", "error")]

/-- The `databasePatterns`; iterated map, same order caveat as above. -/
def databasePatternsList : List (String × String) :=
  [("deadlock", "critical"), ("connection pool exhausted", "critical"),
   ("too many connections", "critical"), ("duplicate key", "warning"),
   ("constraint violation", "error"), ("foreign key violation", "error"),
   ("unique constraint", "warning"), ("table locked", "warning"),
   ("database locked", "warning"), ("SQLITE_BUSY", "warning"),
   ("SQLITE_LOCKED", "warning"), ("SQLITE_CORRUPT", "critical")]

/-- The `securityPatterns`. -/
def securityPatternsList : List String :=
  ["unauthorized", "forbidden", "auth failed", "authentication failed",
   "permission denied", "access denied", "invalid token", "token expired",
   "session expired", "breach", "leaked", "exposed", "vulnerability",
   "injection", "xss", "csrf", "compromised", "malicious", "exploit",
   "brute force", "ddos", "flooding", "suspicious"]

/-- The `performanceThresholds` (map, only ever indexed by key). -/
def performanceThresholdsList : List (String × Int) :=
  [("fast", 100), ("normal", 1000), ("slow", 3000), ("critical", 5000)]

/-- The `businessPatterns`; iterated map, same order caveat as above. -/
def businessPatternsList : List (String × String) :=
  [("payment failed", "error"), ("payment successful", "success"),
   ("payment pending", "info"), ("order completed", "success"),
   ("order cancelled", "warning"), ("order failed", "error"),
   ("subscription expired", "warning"), ("subscription renewed", "success"),
   ("trial expired", "info"), ("invoice overdue", "warning"),
   ("invoice paid", "success"), ("refund processed", "info"),
   ("user registered", "success"), ("user deleted", "warning"),
   ("login successful", "success"), ("login failed", "warning")]

/-! ## Regex scanners

Each Go regex in the source is a small fixed pattern; we embed each one as a
leftmost-match scanner with exactly the pattern's structure.  All literal
matching is case-insensitive, reflecting the `(?i)` flag. -/

/-- Match the (lowercase) literal `lit` case-insensitively at the head of
`cs`, returning the rest. -/
def matchCI : List Char → List Char → Option (List Char)
  | [], cs => some cs
  | _ :: _, [] => none
  | l :: ls, c :: cs => if c.toLower == l then matchCI ls cs else none

/-- RE2 `\s`: the class `[\t\n\f\r ]`. -/
def reWS (c : Char) : Bool :=
  c == ' ' || c == '\t' || c == '\n' || c == Char.ofNat 12 || c == '\r'

/-- The class `[\s:=]` of the status-prefix pattern. -/
def reWSColonEq (c : Char) : Bool := reWS c || c == ':' || c == '='

/-- The class `[\s:]`. -/
def reWSColon (c : Char) : Bool := reWS c || c == ':'

/-- The class `[0-9\.]` of the numeric captures. -/
def reNum (c : Char) : Bool := c.isDigit || c == '.'

/-- RE2 word character (for `\b`): `[0-9A-Za-z_]`. -/
def reWordChar (c : Char) : Bool := c.isAlphanum || c == '_'

/-- Greedy `p*`: drop a maximal run of class characters. -/
def dropClass (p : Char → Bool) (cs : List Char) : List Char := cs.dropWhile p

/-- Greedy `p+`: a nonempty maximal run of class characters, with the rest. -/
def takeClass1 (p : Char → Bool) (cs : List Char) : Option (List Char × List Char) :=
  match cs.takeWhile p with
  | [] => none
  | m => some (m, cs.dropWhile p)

/-- Exactly three digits (`\d{3}`), returning them and the rest. -/
def take3Digits : List Char → Option (List Char × List Char)
  | a :: b :: c :: rest =>
    if a.isDigit && b.isDigit && c.isDigit then some ([a, b, c], rest) else none
  | _ => none

/-- Leftmost-match scan: try the pattern at every suffix, left to right. -/
def scanOpt {α : Type} (f : List Char → Option α) : List Char → Option α
  | [] => f []
  | c :: cs =>
    match f (c :: cs) with
    | some r => some r
    | none => scanOpt f cs

/-- Leftmost-match scan that also tracks the previous character, for the
word-boundary `\b` of the third status pattern. -/
def scanOptB {α : Type} (f : Option Char → List Char → Option α) :
    Option Char → List Char → Option α
  | prev, [] => f prev []
  | prev, c :: cs =>
    match f prev (c :: cs) with
    | some r => some r
    | none => scanOptB f (some c) cs

/-- Pattern 1 of `extractHTTPStatusCode`:
`(?i)(?:status|http|code)[\s:=]*(\d{3})`. -/
def httpPat1 (cs : List Char) : Option String :=
  let afterKw :=
    match matchCI "status".toList cs with
    | some r => some r
    | none =>
      match matchCI "http".toList cs with
      | some r => some r
      | none => matchCI "code".toList cs
  match afterKw with
  | none => none
  | some r =>
    match take3Digits (dropClass reWSColonEq r) with
    | some (d, _) => some (String.mk d)
    | none => none

/-- Pattern 2 of `extractHTTPStatusCode`: `(?i)returned\s+(\d{3})`. -/
def httpPat2 (cs : List Char) : Option String :=
  match matchCI "returned".toList cs with
  | none => none
  | some r =>
    match takeClass1 reWS r with
    | none => none
    | some (_, r2) =>
      match take3Digits r2 with
      | some (d, _) => some (String.mk d)
      | none => none

/-- Pattern 3 of `extractHTTPStatusCode`:
`(?i)\b(\d{3})\s+(?:error|ok|found|not found)`. -/
def httpPat3 (prev : Option Char) (cs : List Char) : Option String :=
  let boundary := match prev with
    | none => true
    | some p => !reWordChar p
  if boundary then
    match take3Digits cs with
    | none => none
    | some (d, r) =>
      match takeClass1 reWS r with
      | none => none
      | some (_, r2) =>
        let kw :=
          match matchCI "error".toList r2 with
          | some _ => true
          | none =>
            match matchCI "ok".toList r2 with
            | some _ => true
            | none =>
              match matchCI "found".toList r2 with
              | some _ => true
              | none => (matchCI "not found".toList r2).isSome
        if kw then some (String.mk d) else none
  else none

/-- Pattern 4 of `extractHTTPStatusCode`:
`(?i)\"status\"[\s:]+[\"']?(\d{3})`. -/
def httpPat4 (cs : List Char) : Option String :=
  match matchCI (Char.ofNat 34 :: "status".toList ++ [Char.ofNat 34]) cs with
  | none => none
  | some r =>
    match takeClass1 reWSColon r with
    | none => none
    | some (_, r2) =>
      let r3 := match r2 with
        | c :: rest => if c == Char.ofNat 34 || c == Char.ofNat 39 then rest else r2
        | [] => r2
      match take3Digits r3 with
      | some (d, _) => some (String.mk d)
      | none => none

/-- The `extractHTTPStatusCode` (main.go lines 188-204): the four regexes are
tried in order; the first one that matches anywhere wins, with the empty
string signalling no match, as in the Go function. -/
def extractHTTPStatusCode (text : String) : String :=
  let cs := text.toList
  match scanOpt httpPat1 cs with
  | some s => s
  | none =>
    match scanOpt httpPat2 cs with
    | some s => s
    | none =>
      match scanOptB httpPat3 none cs with
      | some s => s
      | none =>
        match scanOpt httpPat4 cs with
        | some s => s
        | none => ""

/-! ## Detectors (main.go lines 206-316) -/

/-- The `stackIndicators` of `hasStackTrace`. -/
def stackIndicatorsList : List String :=
  [" at line ", " at Object.", "Traceback", "goroutine ",
   "panic:", ".java:", ".py:", ".js:", ".go:",
   "at /", "File \"", " line ", "in <module>",
   "Exception in thread", "Caused by:", "\n\tat ",
   "Call Stack:", "Stack trace:", "at Function."]

/-- The `hasStackTrace` (main.go lines 207-223): case-insensitive substring
test against the indicator list. -/
def hasStackTrace (text : String) : Bool :=
  let textLower := goToLower text
  stackIndicatorsList.any (fun indicator => goContains textLower (goToLower indicator))

/-- The `detectSecurityIssue` (main.go lines 226-234). -/
def detectSecurityIssue (text : String) : Bool :=
  let textLower := goToLower text
  securityPatternsList.any (fun pat => goContains textLower pat)

/-- The `containsAnyKeyword` (main.go lines 285-293). -/
def containsAnyKeyword (text : String) (keywords : List String) : Bool :=
  let textLower := goToLower text
  keywords.any (fun keyword => goContains textLower keyword)

/-- One `range` step of a Go `map[string]string` whose entries are compared
by `strings.Contains` against a preprocessed text: the first entry whose
pattern occurs yields its severity, otherwise the empty string.  The entry
order is the iteration order of the Go map, which is unspecified, hence
a parameter. -/
def scanMapContains : List (String × String) → String → String
  | [], _ => ""
  | (pat, severity) :: rest, t =>
    if goContains t pat then severity else scanMapContains rest t

/-- The `detectSystemError` (main.go lines 263-271) at a given map iteration
order: upper-cases the text, then scans the code table. -/
def detectSystemErrorOrd (ord : List (String × String)) (text : String) : String :=
  scanMapContains ord (goToUpper text)

/-- The `detectSystemError` at the literal source order of the map. -/
def detectSystemError (text : String) : String :=
  detectSystemErrorOrd systemErrorCodesList text

/-- The `detectDatabaseIssue` (main.go lines 274-282) at a given map iteration
order: lower-cases the text, then scans the pattern table. -/
def detectDatabaseIssueOrd (ord : List (String × String)) (text : String) : String :=
  scanMapContains ord (goToLower text)

/-- The `detectDatabaseIssue` at the literal source order of the map. -/
def detectDatabaseIssue (text : String) : String :=
  detectDatabaseIssueOrd databasePatternsList text

/-- The `detectBusinessLogic` (main.go lines 296-304) at a given map iteration
order. -/
def detectBusinessLogicOrd (ord : List (String × String)) (text : String) : String :=
  scanMapContains ord (goToLower text)

/-- The `detectBusinessLogic` at the literal source order of the map. -/
def detectBusinessLogic (text : String) : String :=
  detectBusinessLogicOrd businessPatternsList text

/-- The `strconv.ParseFloat` restricted to captures of the class `[0-9\.]+`:
legal iff it has at least one digit and at most one dot; the value is exact
(the Go code's float64 value is the nearest double, and the call sites only
compare against coarse thresholds). -/
def parseGoFloat (s : String) : Option ℚ :=
  let cs := s.toList
  let intPart := cs.takeWhile Char.isDigit
  let rest := cs.dropWhile Char.isDigit
  let digitsToNat : List Char → Nat :=
    fun l => l.foldl (fun n c => 10 * n + (c.toNat - 48)) 0
  match rest with
  | [] => if intPart.isEmpty then none else some (digitsToNat intPart : ℚ)
  | '.' :: fracs =>
    if fracs.all Char.isDigit ∧ ¬(intPart.isEmpty ∧ fracs.isEmpty) then
      some ((digitsToNat intPart : ℚ) + (digitsToNat fracs : ℚ) / (10 : ℚ) ^ fracs.length)
    else none
  | _ => none

/-- Go `int(q)` conversion: truncation toward zero. -/
def goTruncQ (q : ℚ) : Int := if q < 0 then -(⌊-q⌋) else ⌊q⌋

/-- The keyword alternation `(?:took|duration|elapsed|time)` shared by the
first two performance patterns. -/
def perfKeyword (cs : List Char) : Option (List Char) :=
  match matchCI "took".toList cs with
  | some r => some r
  | none =>
    match matchCI "duration".toList cs with
    | some r => some r
    | none =>
      match matchCI "elapsed".toList cs with
      | some r => some r
      | none => matchCI "time".toList cs

/-- Pattern 1 of `extractPerformanceMetrics`:
`(?i)(?:took|duration|elapsed|time)[\s:]+([0-9\.]+)\s*(?:ms|milliseconds)`,
returning (capture, rest after the whole match). -/
def perfPat1 (cs : List Char) : Option (List Char × List Char) :=
  match perfKeyword cs with
  | none => none
  | some r =>
    match takeClass1 reWSColon r with
    | none => none
    | some (_, r2) =>
      match takeClass1 reNum r2 with
      | none => none
      | some (cap, r3) =>
        let r4 := dropClass reWS r3
        match matchCI "ms".toList r4 with
        | some rest => some (cap, rest)
        | none =>
          match matchCI "milliseconds".toList r4 with
          | some rest => some (cap, rest)
          | none => none

/-- Pattern 2 of `extractPerformanceMetrics`:
`(?i)(?:took|duration|elapsed|time)[\s:]+([0-9\.]+)\s*(?:s|seconds)`. -/
def perfPat2 (cs : List Char) : Option (List Char × List Char) :=
  match perfKeyword cs with
  | none => none
  | some r =>
    match takeClass1 reWSColon r with
    | none => none
    | some (_, r2) =>
      match takeClass1 reNum r2 with
      | none => none
      | some (cap, r3) =>
        let r4 := dropClass reWS r3
        match matchCI "s".toList r4 with
        | some rest => some (cap, rest)
        | none =>
          match matchCI "seconds".toList r4 with
          | some rest => some (cap, rest)
          | none => none

/-- Pattern 3 of `extractPerformanceMetrics`:
`(?i)in\s+([0-9\.]+)\s*(?:ms|milliseconds)`. -/
def perfPat3 (cs : List Char) : Option (List Char × List Char) :=
  match matchCI "in".toList cs with
  | none => none
  | some r =>
    match takeClass1 reWS r with
    | none => none
    | some (_, r2) =>
      match takeClass1 reNum r2 with
      | none => none
      | some (cap, r3) =>
        let r4 := dropClass reWS r3
        match matchCI "ms".toList r4 with
        | some rest => some (cap, rest)
        | none =>
          match matchCI "milliseconds".toList r4 with
          | some rest => some (cap, rest)
          | none => none

/-- Pattern 4 of `extractPerformanceMetrics`:
`(?i)([0-9\.]+)\s*(?:ms|milliseconds)\s+(?:elapsed|duration)`; the unit
alternation backtracks from `ms` to `milliseconds` when the continuation
fails, matching RE2's leftmost-first semantics. -/
def perfPat4 (cs : List Char) : Option (List Char × List Char) :=
  match takeClass1 reNum cs with
  | none => none
  | some (cap, r) =>
    let r2 := dropClass reWS r
    let cont := fun (r3 : List Char) =>
      match takeClass1 reWS r3 with
      | none => none
      | some (_, r4) =>
        match matchCI "elapsed".toList r4 with
        | some rest => some rest
        | none => matchCI "duration".toList r4
    let viaMs :=
      match matchCI "ms".toList r2 with
      | some r3 => cont r3
      | none => none
    match viaMs with
    | some rest => some (cap, rest)
    | none =>
      match matchCI "milliseconds".toList r2 with
      | some r3 =>
        match cont r3 with
        | some rest => some (cap, rest)
        | none => none
      | none => none

/-- Leftmost-match scan for the performance patterns, also returning the
suffix at which the match starts (needed to recover `matches[0]`). -/
def scanPerf (f : List Char → Option (List Char × List Char)) :
    List Char → Option (List Char × List Char × List Char)
  | [] =>
    match f [] with
    | some (cap, rest) => some ([], cap, rest)
    | none => none
  | c :: cs =>
    match f (c :: cs) with
    | some (cap, rest) => some (c :: cs, cap, rest)
    | none => scanPerf f cs

/-- One pattern iteration of `extractPerformanceMetrics`: on a match,
parse the capture; on success apply the seconds-to-milliseconds conversion,
which tests `matches[0]` for `s` but not `ms` (case-insensitively), and
truncate to `int`.  A parse failure falls through like a failed match. -/
def perfStep (cs : List Char) (pat : List Char → Option (List Char × List Char)) :
    Option Int :=
  match scanPerf pat cs with
  | none => none
  | some (suffix, cap, rest) =>
    match parseGoFloat (String.mk cap) with
    | none => none
    | some val =>
      let whole := String.mk (suffix.take (suffix.length - rest.length))
      if goContains (goToLower whole) "s" && !goContains (goToLower whole) "ms" then
        some (goTruncQ (val * 1000))
      else
        some (goTruncQ val)

/-- The `extractPerformanceMetrics` (main.go lines 237-260): the four patterns
in order; `none` plays the role of Go's `(0, false)`. -/
def extractPerformanceMetrics (text : String) : Option Int :=
  let cs := text.toList
  match perfStep cs perfPat1 with
  | some d => some d
  | none =>
    match perfStep cs perfPat2 with
    | some d => some d
    | none =>
      match perfStep cs perfPat3 with
      | some d => some d
      | none => perfStep cs perfPat4

/-- The single pattern of `extractPercentage`:
`(?i){context}[\s:]*([0-9\.]+)\s*%`. -/
def pctPat (ctx : List Char) (cs : List Char) : Option (List Char) :=
  match matchCI ctx cs with
  | none => none
  | some r =>
    match takeClass1 reNum (dropClass reWSColon r) with
    | none => none
    | some (cap, r3) =>
      match dropClass reWS r3 with
      | c :: _ => if c == '%' then some cap else none
      | [] => none

/-- The `extractPercentage` (main.go lines 307-316): -1 signals both a missing
match and an unparsable capture, as in the Go function. -/
def extractPercentage (text : String) (context : String) : Int :=
  match scanOpt (pctPat (goToLower context).toList) text.toList with
  | none => -1
  | some cap =>
    match parseGoFloat (String.mk cap) with
    | some val => goTruncQ val
    | none => -1

/-! ## JSON bodies and `json.Marshal` -/

/-- JSON values, the model of Go's `interface{}` as decoded from a JSON
body (numbers restricted to integers, which the detectors only ever see as
text). -/
inductive JVal where
  | jstr (s : String)
  | jnum (n : Int)
  | jbool (b : Bool)
  | jnull
  | jobj (fields : List (String × JVal))
  | jarr (elems : List JVal)

/-- A log body: Go's `map[string]interface{}`, modelled as an association
list with the map's (unique) keys. -/
abbrev Body := List (String × JVal)

/-- The `encoding/json` string escaping, including Go's default HTML escaping
of angle brackets and ampersands. -/
def jsonEscapeChar (c : Char) : List Char :=
  if c == Char.ofNat 34 then [Char.ofNat 92, Char.ofNat 34]
  else if c == Char.ofNat 92 then [Char.ofNat 92, Char.ofNat 92]
  else if c == '\n' then [Char.ofNat 92, 'n']
  else if c == '\r' then [Char.ofNat 92, 'r']
  else if c == '\t' then [Char.ofNat 92, 't']
  else if c == '<' then (Char.ofNat 92) :: "u003c".toList
  else if c == '>' then (Char.ofNat 92) :: "u003e".toList
  else if c == '&' then (Char.ofNat 92) :: "u0026".toList
  else if c.toNat < 32 then
    (Char.ofNat 92) :: 'u' :: '0' :: '0' ::
      [Char.ofNat (if c.toNat / 16 < 10 then 48 + c.toNat / 16 else 87 + c.toNat / 16),
       Char.ofNat (if c.toNat % 16 < 10 then 48 + c.toNat % 16 else 87 + c.toNat % 16)]
  else [c]

/-- Escape a whole string for JSON output. -/
def jsonEscape (cs : List Char) : List Char := cs.flatMap jsonEscapeChar

/-- Byte-wise (here: character-wise) string order used by `json.Marshal`
to sort map keys. -/
def charListLe : List Char → List Char → Bool
  | [], _ => true
  | _ :: _, [] => false
  | a :: as, b :: bs => if a == b then charListLe as bs else decide (a < b)

/-- Insert a rendered field into a key-sorted rendered field list. -/
def insertRendered (x : String × List Char) :
    List (String × List Char) → List (String × List Char)
  | [] => [x]
  | y :: ys =>
    if charListLe x.1.toList y.1.toList then x :: y :: ys else y :: insertRendered x ys

/-- Sort rendered fields by key, as `json.Marshal` sorts map keys. -/
def sortRendered : List (String × List Char) → List (String × List Char)
  | [] => []
  | x :: xs => insertRendered x (sortRendered xs)

/-- Comma-join rendered `"key":value` fields. -/
def joinFields : List (String × List Char) → List Char
  | [] => []
  | [(k, v)] => (Char.ofNat 34 :: jsonEscape k.toList ++ [Char.ofNat 34, ':']) ++ v
  | (k, v) :: rest =>
    (Char.ofNat 34 :: jsonEscape k.toList ++ [Char.ofNat 34, ':']) ++ v
      ++ ',' :: joinFields rest

/-- Comma-join rendered array elements. -/
def joinElems : List (List Char) → List Char
  | [] => []
  | [v] => v
  | v :: rest => v ++ ',' :: joinElems rest

mutual

/-- Render a JSON value, as `json.Marshal` does (map keys sorted). -/
def jsonRender : JVal → List Char
  | .jstr s => Char.ofNat 34 :: jsonEscape s.toList ++ [Char.ofNat 34]
  | .jnum n => (toString n).toList
  | .jbool b => (if b then "true" else "false").toList
  | .jnull => "null".toList
  | .jobj fields =>
    Char.ofNat 123 :: joinFields (sortRendered (jsonRenderFields fields)) ++ [Char.ofNat 125]
  | .jarr elems => '[' :: joinElems (jsonRenderElems elems) ++ [']']

/-- Render the fields of an object (before sorting). -/
def jsonRenderFields : List (String × JVal) → List (String × List Char)
  | [] => []
  | (k, v) :: rest => (k, jsonRender v) :: jsonRenderFields rest

/-- Render the elements of an array. -/
def jsonRenderElems : List JVal → List (List Char)
  | [] => []
  | v :: rest => jsonRender v :: jsonRenderElems rest

end

/-- The `json.Marshal` of a log body. -/
def jsonMarshal (body : Body) : String := String.mk (jsonRender (JVal.jobj body))

/-! ## Data structures (main.go lines 462-495) -/

/-- The `LogHeader` (the Go field `Type` is renamed `Type'`, `Type` being a
Lean keyword). -/
structure LogHeader where
  Type' : String
  Title : String
  Description : String
  Source : String
  Color : String
deriving DecidableEq

/-- The `LogMetadata`: the derived severity/source/category triple. -/
structure LogMetadata where
  DerivedSeverity : String
  DerivedSource : String
  DerivedCategory : String
deriving DecidableEq

/-- The combined text blob of `deriveMetadata`:
`fmt.Sprintf("%s %s %s %s", header.Type, header.Title, header.Description,
bodyText)`. -/
def allTextOf (header : LogHeader) (body : Body) : String :=
  header.Type' ++ " " ++ header.Title ++ " " ++ header.Description ++ " " ++ jsonMarshal body

/-- Go type assertion `body[field].(string)` guarded by `ok && value != ""`,
the shape of every explicit source-field probe. -/
def goAssocJ : Body → String → Option JVal
  | [], _ => none
  | (k, v) :: rest, key => if k == key then some v else goAssocJ rest key

/-- The combined test `value, ok := body[field].(string); ok && value != ""`. -/
def getNonEmptyStr (body : Body) (field : String) : Option String :=
  match goAssocJ body field with
  | some (JVal.jstr value) => if value ≠ "" then some value else none
  | _ => none

/-! ## `smartSourceExtraction` (main.go lines 319-455) -/

/-- The punctuation cutset `.,!?:;"'()[]{}` of the fallback word scan
(quote, apostrophe and braces written by code point). -/
def trimPunctCutset : List Char :=
  ['.', ',', '!', '?', ':', ';', Char.ofNat 34, Char.ofNat 39,
   '(', ')', '[', ']', Char.ofNat 123, Char.ofNat 125]

/-- The final word scan of `smartSourceExtraction`: the first word
containing `service` or `app` that still has more than two characters
after trimming punctuation; otherwise the generic default. -/
def serviceWordScan : List String → String
  | [] => "application-service"
  | word :: words =>
    if goContains word "service" || goContains word "app" then
      if 2 < (goTrim word trimPunctCutset).length then goTrim word trimPunctCutset
      else serviceWordScan words
    else serviceWordScan words

/-- The `smartSourceExtraction`: the ordered domain-phrase families.  The Go
local `textLower := strings.ToLower(allText)` is inlined as
`goToLower allText` throughout. -/
def smartSourceExtraction (allText : String) : String :=
  if goContains (goToLower allText) "database" || goContains (goToLower allText) "sql" ||
     goContains (goToLower allText) "query" || goContains (goToLower allText) "table" then
    if goContains (goToLower allText) "postgres" then "postgresql-db"
    else if goContains (goToLower allText) "mysql" then "mysql-db"
    else if goContains (goToLower allText) "mongo" then "mongodb"
    else if goContains (goToLower allText) "redis" then "redis-cache"
    else if goContains (goToLower allText) "sqlite" then "sqlite-db"
    else "database-service"
  else if goContains (goToLower allText) "login" || goContains (goToLower allText) "auth" ||
     goContains (goToLower allText) "token" || goContains (goToLower allText) "session" then
    "auth-service"
  else if goContains (goToLower allText) "payment" || goContains (goToLower allText) "stripe" ||
     goContains (goToLower allText) "paypal" || goContains (goToLower allText) "billing" then
    "payment-service"
  else if goContains (goToLower allText) "email" || goContains (goToLower allText) "smtp" ||
     goContains (goToLower allText) "notification" || goContains (goToLower allText) "mailgun" then
    "email-service"
  else if goContains (goToLower allText) "api gateway" || goContains (goToLower allText) "endpoint" ||
     goContains (goToLower allText) "route" || goContains (goToLower allText) "/api/" then
    "api-gateway"
  else if goContains (goToLower allText) "user" && (goContains (goToLower allText) "profile" ||
     goContains (goToLower allText) "register" || goContains (goToLower allText) "account") then
    "user-service"
  else if goContains (goToLower allText) "order" || goContains (goToLower allText) "cart" ||
     goContains (goToLower allText) "checkout" || goContains (goToLower allText) "inventory" then
    "order-service"
  else if goContains (goToLower allText) "file" || goContains (goToLower allText) "upload" ||
     goContains (goToLower allText) "download" || goContains (goToLower allText) "s3" ||
     goContains (goToLower allText) "storage" then "file-service"
  else if goContains (goToLower allText) "search" || goContains (goToLower allText) "elasticsearch" ||
     goContains (goToLower allText) "solr" || goContains (goToLower allText) "query" then
    "search-service"
  else if goContains (goToLower allText) "health" || goContains (goToLower allText) "monitor" ||
     goContains (goToLower allText) "metrics" || goContains (goToLower allText) "prometheus" then
    "monitoring-service"
  else if goContains (goToLower allText) "load balan" || goContains (goToLower allText) "nginx" ||
     goContains (goToLower allText) "haproxy" || goContains (goToLower allText) "upstream" then
    "load-balancer"
  else if goContains (goToLower allText) "cache" && !goContains (goToLower allText) "redis" then
    "cache-service"
  else if goContains (goToLower allText) "config" || goContains (goToLower allText) "setting" ||
     goContains (goToLower allText) "environment" then "config-service"
  else if goContains (goToLower allText) "backup" || goContains (goToLower allText) "restore" ||
     goContains (goToLower allText) "archive" then "backup-service"
  else if goContains (goToLower allText) "report" || goContains (goToLower allText) "analytics" ||
     goContains (goToLower allText) "dashboard" then "reporting-service"
  else if goContains (goToLower allText) "deploy" || goContains (goToLower allText) "build" ||
     goContains (goToLower allText) "pipeline" || goContains (goToLower allText) "docker" ||
     goContains (goToLower allText) "kubernetes" || goContains (goToLower allText) "k8s" then
    "deployment-service"
  else if goContains (goToLower allText) "cdn" || goContains (goToLower allText) "cloudflare" ||
     goContains (goToLower allText) "static" then "cdn-service"
  else if extractHTTPStatusCode allText ≠ "" then "web-service"
  else serviceWordScan (goFields (goToLower allText))

/-! ## `deriveMetadata` (main.go lines 901-1064) -/

/-- The six severity values of the specification's enum. -/
def sevEnumList : List String :=
  ["critical", "error", "warning", "success", "debug", "info"]

/-- Severity derivation of `deriveMetadata` (main.go lines 914-987) at the
given iteration orders of the three scanned pattern maps.  The structure is
the source's if/else-if chain with locals inlined. -/
def deriveSeverityOrd (sysOrd dbOrd busOrd : List (String × String))
    (allText : String) : String :=
  if extractHTTPStatusCode allText ≠ "" then
    match goMapGet httpStatusSeverityList (extractHTTPStatusCode allText) with
    | some severity => severity
    | none =>
      if 200 ≤ goAtoi (extractHTTPStatusCode allText) ∧
         goAtoi (extractHTTPStatusCode allText) < 300 then "success"
      else if 300 ≤ goAtoi (extractHTTPStatusCode allText) ∧
         goAtoi (extractHTTPStatusCode allText) < 400 then "info"
      else if 400 ≤ goAtoi (extractHTTPStatusCode allText) ∧
         goAtoi (extractHTTPStatusCode allText) < 500 then "warning"
      else if 500 ≤ goAtoi (extractHTTPStatusCode allText) then "error"
      else "info"
  else if hasStackTrace allText then "error"
  else if detectSecurityIssue allText then "critical"
  else if detectDatabaseIssueOrd dbOrd allText ≠ "" then
    detectDatabaseIssueOrd dbOrd allText
  else if detectSystemErrorOrd sysOrd allText ≠ "" then
    detectSystemErrorOrd sysOrd allText
  else if detectBusinessLogicOrd busOrd allText ≠ "" then
    detectBusinessLogicOrd busOrd allText
  else
    match extractPerformanceMetrics allText with
    | some duration =>
      if goMapGetIntD performanceThresholdsList "critical" 0 ≤ duration then "critical"
      else if goMapGetIntD performanceThresholdsList "slow" 0 ≤ duration then "warning"
      else if goMapGetIntD performanceThresholdsList "normal" 0 ≤ duration then "info"
      else "success"
    | none =>
      if containsAnyKeyword (goToLower allText) errorKeywordsList then "error"
      else if containsAnyKeyword (goToLower allText) warningKeywordsList then "warning"
      else if containsAnyKeyword (goToLower allText) successKeywordsList then "success"
      else if containsAnyKeyword (goToLower allText) debugKeywordsList then "debug"
      else if 90 < extractPercentage allText "cpu" ∨
              90 < extractPercentage allText "memory" ∨
              90 < extractPercentage allText "disk" then "critical"
      else if 75 < extractPercentage allText "cpu" ∨
              75 < extractPercentage allText "memory" ∨
              75 < extractPercentage allText "disk" then "warning"
      else "info"

/-- Source derivation of `deriveMetadata` (main.go lines 990-1022): the
explicit body fields in order `service`, `source`, `component`, `app`,
`module`, `origin`; then `header.Source`; then stack-trace language
inference (case-sensitive contains, as in the source); then smart
content-based extraction. -/
def deriveSource (header : LogHeader) (body : Body) (allText : String) : String :=
  match getNonEmptyStr body "service" with
  | some v => v
  | none =>
  match getNonEmptyStr body "source" with
  | some v => v
  | none =>
  match getNonEmptyStr body "component" with
  | some v => v
  | none =>
  match getNonEmptyStr body "app" with
  | some v => v
  | none =>
  match getNonEmptyStr body "module" with
  | some v => v
  | none =>
  match getNonEmptyStr body "origin" with
  | some v => v
  | none =>
  if header.Source ≠ "" then header.Source
  else if hasStackTrace allText then
    if goContains allText ".java:" then "java-app"
    else if goContains allText ".py:" then "python-app"
    else if goContains allText ".js:" then "node-app"
    else if goContains allText ".go:" then "go-app"
    else "unknown"
  else smartSourceExtraction allText

/-- The `containsString` (main.go lines 1067-1074). -/
def containsString (slice : List String) (item : String) : Bool :=
  slice.any (fun s => s == item)

/-- The stopword list of the category title-word fallback. -/
def categoryStopWords : List String := ["the", "and", "for", "with", "from", "into"]

/-- The title loop of the category fallback (main.go lines 1045-1053):
first word longer than two characters that is not a stopword, else the
empty string. -/
def firstLongWord : List String → String
  | [] => ""
  | word :: words =>
    if 2 < word.length && !containsString categoryStopWords word then word
    else firstLongWord words

/-- The title-word category fallback (main.go lines 1044-1059). -/
def titleWordCategory (title : String) : String :=
  match goFields (goToLower title) with
  | [] => "general"
  | w :: ws =>
    if firstLongWord (w :: ws) = "" then w else firstLongWord (w :: ws)

/-- Category derivation of `deriveMetadata` (main.go lines 1025-1061). -/
def deriveCategory (dbOrd : List (String × String)) (header : LogHeader)
    (allText : String) : String :=
  if header.Type' ≠ "" then goToLower header.Type'
  else if detectSecurityIssue allText then "security"
  else if detectDatabaseIssueOrd dbOrd allText ≠ "" then "database"
  else if goContains (goToLower allText) "payment" ||
          goContains (goToLower allText) "invoice" ||
          goContains (goToLower allText) "subscription" then "business"
  else if extractHTTPStatusCode allText ≠ "" then "http"
  else if hasStackTrace allText then "exception"
  else
    match extractPerformanceMetrics allText with
    | some duration => if 0 < duration then "performance" else titleWordCategory header.Title
    | none => titleWordCategory header.Title

/-- The `deriveMetadata` at given iteration orders for the three scanned
pattern maps. -/
def deriveMetadataOrd (sysOrd dbOrd busOrd : List (String × String))
    (header : LogHeader) (body : Body) : LogMetadata :=
  { DerivedSeverity := deriveSeverityOrd sysOrd dbOrd busOrd (allTextOf header body)
    DerivedSource := deriveSource header body (allTextOf header body)
    DerivedCategory := deriveCategory dbOrd header (allTextOf header body) }

/-- The `deriveMetadata` at the literal source order of the three maps. -/
def deriveMetadata (header : LogHeader) (body : Body) : LogMetadata :=
  deriveMetadataOrd systemErrorCodesList databasePatternsList businessPatternsList header body

/-! ## Validation and auto-fill (main.go lines 742-754, 832-896, 1077-1089, 1144-1151) -/

/-- The `validColors` map of `isValidTailwindColor`, in source literal
order. -/
def tailwindColorsList : List (String × Bool) :=
  [("slate", true), ("gray", true), ("zinc", true), ("neutral", true), ("stone", true),
   ("red", true), ("orange", true), ("amber", true), ("yellow", true), ("lime", true),
   ("green", true), ("emerald", true), ("teal", true), ("cyan", true), ("sky", true),
   ("blue", true),
   ("indigo", true), ("violet", true), ("purple", true), ("fuchsia", true), ("pink", true),
   ("rose", true)]

/-- The `isValidTailwindColor` (main.go lines 742-754): Go map indexing with
`false` as the missing-key default. -/
def isValidTailwindColor (color : String) : Bool :=
  goMapGetBoolD tailwindColorsList color false

/-- An ASCII apostrophe, for faithful error-message text. -/
def apos : String := String.mk [Char.ofNat 39]

/-- The `validateLogHeader` (main.go lines 1077-1089); `some msg` is the
returned error, `none` is success. -/
def validateLogHeader (header : LogHeader) : Option String :=
  if header.Title = "" then some "title is required"
  else if header.Color ≠ "" && !isValidTailwindColor header.Color then
    some ("invalid color " ++ apos ++ header.Color ++ apos ++
      " - must be a valid Tailwind CSS 4 color name")
  else none

/-- The `deriveColorFromSeverity` (main.go lines 861-896): the severity switch
with the category-based default branch. -/
def deriveColorFromSeverity (header : LogHeader) (body : Body) : String :=
  if (deriveMetadata header body).DerivedSeverity = "critical" then "red"
  else if (deriveMetadata header body).DerivedSeverity = "error" then "rose"
  else if (deriveMetadata header body).DerivedSeverity = "warning" then "yellow"
  else if (deriveMetadata header body).DerivedSeverity = "success" then "green"
  else if (deriveMetadata header body).DerivedSeverity = "debug" then "gray"
  else if (deriveMetadata header body).DerivedSeverity = "info" then "blue"
  else if (deriveMetadata header body).DerivedCategory = "security" then "purple"
  else if (deriveMetadata header body).DerivedCategory = "database" then "indigo"
  else if (deriveMetadata header body).DerivedCategory = "performance" then "orange"
  else if (deriveMetadata header body).DerivedCategory = "business" then "emerald"
  else if (deriveMetadata header body).DerivedCategory = "http" then "cyan"
  else "blue"

/-- The claim's comparison definition: the severity→color switch alone
(critical→red, error→rose, warning→yellow, success→green, debug→gray,
info→blue), with no category-based branch at all. -/
def severitySwitchColor (severity : String) : String :=
  if severity = "critical" then "red"
  else if severity = "error" then "rose"
  else if severity = "warning" then "yellow"
  else if severity = "success" then "green"
  else if severity = "debug" then "gray"
  else "blue"

/-- The `sourceFields` probe order of `deriveSourceFromBody`
(main.go line 834): note `source` before `service`, and the extra
`application`/`system` fields. -/
def sourceFieldsList : List String :=
  ["source", "service", "component", "app", "application", "module", "system"]

/-- A field-probing loop over a field-name list: the first field holding a
non-empty string wins. -/
def firstNonEmptyField (body : Body) : List String → Option String
  | [] => none
  | field :: fields =>
    match getNonEmptyStr body field with
    | some v => some v
    | none => firstNonEmptyField body fields

/-- The `deriveSourceFromBody` (main.go lines 832-858): explicit body fields,
then the same fields under `body["metadata"]`, then smart content-based
extraction over the marshalled body. -/
def deriveSourceFromBody (body : Body) : String :=
  match firstNonEmptyField body sourceFieldsList with
  | some v => v
  | none =>
    match goAssocJ body "metadata" with
    | some (JVal.jobj meta) =>
      match firstNonEmptyField meta sourceFieldsList with
      | some v => v
      | none => smartSourceExtraction (jsonMarshal body)
    | _ => smartSourceExtraction (jsonMarshal body)

/-- The claim's field order for the ingest source cascade (`service` first,
ending in `origin`), used to state claim C9 as written. -/
def claimC9FieldOrder : List String :=
  ["service", "source", "component", "app", "module", "origin"]

/-- The source auto-fill step of `createLog` (main.go lines 1144-1147):
derive `header.Source` from the body only when it was omitted. -/
def autoFillSource (header : LogHeader) (body : Body) : String :=
  if header.Source = "" then deriveSourceFromBody body else header.Source

/-! ## The 24h error-rate fragment of `handleStats` (main.go lines 1427-1440) -/

/-- A stored log row as read back by the statistics queries: its persisted
derived severity and its timestamp (seconds). -/
structure StoredEntry where
  derived_severity : String
  timestamp : Int
deriving DecidableEq

/-- The `SELECT COUNT(*) FROM logs WHERE timestamp >= ?` at the 24h cutoff:
the `stats.Last24Hours` count. -/
def statsLast24Count (entries : List StoredEntry) (cut : Int) : Nat :=
  (entries.filter (fun e => cut ≤ e.timestamp)).length

/-- The `SELECT COUNT(*) FROM logs WHERE derived_severity = 'error' AND
timestamp >= ?`: the `errorCount24h` count. -/
def statsErrorCount24h (entries : List StoredEntry) (cut : Int) : Nat :=
  (entries.filter (fun e => e.derived_severity == "error" && cut ≤ e.timestamp)).length

/-- Round to the nearest integer, ties to even — the rounding of Go's
`%.1f` on the exactly representable values arising here. -/
def roundHalfEvenQ (q : ℚ) : Int :=
  if q - ⌊q⌋ < 1/2 then ⌊q⌋
  else if 1/2 < q - ⌊q⌋ then ⌊q⌋ + 1
  else if ⌊q⌋ % 2 = 0 then ⌊q⌋ else ⌊q⌋ + 1

/-- The `fmt.Sprintf("%.1f", q)` for the non-negative rates occurring in the
statistics code. -/
def goFmt1f (q : ℚ) : String :=
  toString (roundHalfEvenQ (q * 10) / 10) ++ "." ++ toString (roundHalfEvenQ (q * 10) % 10)

/-- The error-rate block of `handleStats` (main.go lines 1427-1440),
modelling its `float64` arithmetic exactly over `ℚ`: the
`error_rate_24h` string together with the alerts this block appends. -/
def statsErrorRateBlock (entries : List StoredEntry) (cut : Int) : String × List String :=
  if 0 < statsLast24Count entries cut then
    (goFmt1f ((statsErrorCount24h entries cut : ℚ) / (statsLast24Count entries cut : ℚ) * 100)
       ++ "%",
     if 20 < (statsErrorCount24h entries cut : ℚ) / (statsLast24Count entries cut : ℚ) * 100 then
       ["High error rate detected: " ++
         goFmt1f ((statsErrorCount24h entries cut : ℚ) / (statsLast24Count entries cut : ℚ) * 100)
         ++ "%"]
     else [])
  else ("0.0%", [])

/-! ## Auxiliary lemmas -/

/-- A looked-up map value is one of the table's values. -/
lemma goMapGet_mem {l : List (String × String)} {k v : String}
    (h : goMapGet l k = some v) : v ∈ l.map Prod.snd := by
  induction l with
  | nil => simp [goMapGet] at h
  | cons p rest ih =>
    obtain ⟨pk, pv⟩ := p
    by_cases hk : pk == k
    · simp [goMapGet, hk] at h
      simp [h]
    · simp [goMapGet, hk] at h
      simpa using Or.inr (ih h)

/-- A non-empty result of a contains-scan over a pattern map is one of the
map's values. -/
lemma scanMapContains_mem_of_ne {ps : List (String × String)} {t : String}
    (h : scanMapContains ps t ≠ "") : scanMapContains ps t ∈ ps.map Prod.snd := by
  induction ps with
  | nil => simp [scanMapContains] at h
  | cons p rest ih =>
    obtain ⟨pat, sev⟩ := p
    by_cases hc : goContains t pat
    · simp [scanMapContains, hc]
    · simp only [scanMapContains, hc, if_false, Bool.false_eq_true, if_neg] at h ⊢
      simpa using Or.inr (ih h)

/-- A string of nonzero length is not the empty string. -/
lemma ne_empty_of_length_pos {s : String} (h : 0 < s.length) : s ≠ "" := by
  intro heq
  rw [heq] at h
  simp at h

/-- A successful non-empty-field probe returns a non-empty string. -/
lemma getNonEmptyStr_ne {body : Body} {f s : String}
    (h : getNonEmptyStr body f = some s) : s ≠ "" := by
  unfold getNonEmptyStr at h
  split at h
  · next v heq =>
    split at h
    · next hne => cases h; assumption
    · cases h
  · cases h

/-- Every word flushed by the fields splitter is nonempty. -/
lemma goFieldsAux_ne :
    ∀ (cs acc : List Char), ∀ w ∈ goFieldsAux acc cs, w ≠ [] := by
  intro cs
  induction cs with
  | nil =>
    intro acc w hw
    cases acc with
    | nil => simp [goFieldsAux] at hw
    | cons a as =>
      simp [goFieldsAux] at hw
      subst hw
      simp
  | cons c cs ih =>
    intro acc w hw
    by_cases hc : goIsSpaceChar c
    · cases acc with
      | nil =>
        simp only [goFieldsAux, hc, if_true, List.isEmpty_nil, ite_true] at hw
        exact ih [] w hw
      | cons a as =>
        simp only [goFieldsAux, hc, if_true, List.isEmpty_cons, ite_false] at hw
        rcases List.mem_cons.mp hw with h | h
        · subst h; simp
        · exact ih [] w h
    · simp only [goFieldsAux, hc, Bool.false_eq_true, if_false] at hw
      exact ih (c :: acc) w hw

/-- Every word produced by `goFields` is a non-empty string. -/
lemma goFields_ne {s : String} : ∀ w ∈ goFields s, w ≠ "" := by
  intro w hw heq
  unfold goFields at hw
  simp only [List.mem_map] at hw
  obtain ⟨l, hl, hmk⟩ := hw
  have hne : l ≠ [] := goFieldsAux_ne s.toList [] l hl
  apply hne
  have h0 : (String.mk l).length = ("" : String).length := by rw [hmk, heq]
  have h2 : l.length = 0 := h0
  exact List.length_eq_zero.mp h2

/-- The title loop yields nothing or a word longer than two characters. -/
lemma firstLongWord_spec (l : List String) :
    firstLongWord l = "" ∨ 2 < (firstLongWord l).length := by
  induction l with
  | nil => left; rfl
  | cons w ws ih =>
    by_cases h : (2 < w.length && !containsString categoryStopWords w : Bool)
    · right
      simp only [firstLongWord, h, if_pos]
      exact (Bool.and_eq_true _ _ |>.mp h).1 |> of_decide_eq_true
    · simpa [firstLongWord, h] using ih

/-- The title-word category fallback never returns an empty string. -/
lemma titleWordCategory_ne (title : String) : titleWordCategory title ≠ "" := by
  unfold titleWordCategory
  split
  · decide
  · next w ws heq =>
    have hw : w ≠ "" := goFields_ne w (by rw [heq]; exact List.mem_cons_self w ws)
    split
    · exact hw
    · next hne => exact hne

/-- Lowercasing preserves length. -/
lemma goToLower_length (s : String) : (goToLower s).length = s.length := by
  cases s
  simp [goToLower, String.length]

/-- A string of length zero is the empty string. -/
lemma eq_empty_of_length_zero {s : String} (h : s.length = 0) : s = "" := by
  cases s with
  | mk data =>
    cases data with
    | nil => rfl
    | cons c cs => simp [String.length] at h

/-- Lowercasing preserves non-emptiness. -/
lemma goToLower_ne {s : String} (h : s ≠ "") : goToLower s ≠ "" := by
  intro heq
  apply h
  apply eq_empty_of_length_zero
  rw [← goToLower_length, heq]
  decide

/-- The fallback word scan never returns an empty string. -/
lemma serviceWordScan_ne (ws : List String) : serviceWordScan ws ≠ "" := by
  induction ws with
  | nil => decide
  | cons w rest ih =>
    unfold serviceWordScan
    split
    · split
      · next hlen => exact ne_empty_of_length_pos (by omega)
      · exact ih
    · exact ih

/-- Non-emptiness is preserved by an `if` whose branches are non-empty. -/
lemma ite_ne {c : Prop} [Decidable c] {a b : String}
    (ha : a ≠ "") (hb : b ≠ "") : (if c then a else b) ≠ "" := by
  by_cases h : c
  · rw [if_pos h]; exact ha
  · rw [if_neg h]; exact hb

/-- Conditional variant of `ite_ne` for a branch guarded by its own
condition. -/
lemma ite_ne_cond {c : Prop} [Decidable c] {a b : String}
    (ha : c → a ≠ "") (hb : ¬c → b ≠ "") : (if c then a else b) ≠ "" := by
  by_cases h : c
  · rw [if_pos h]; exact ha h
  · rw [if_neg h]; exact hb h

/-- Membership in a list is preserved by an `if`, with each branch guarded
by its condition. -/
lemma mem_ite {α : Type} {c : Prop} [Decidable c] {a b : α} {l : List α}
    (ha : c → a ∈ l) (hb : ¬c → b ∈ l) : (if c then a else b) ∈ l := by
  by_cases h : c
  · rw [if_pos h]; exact ha h
  · rw [if_neg h]; exact hb h

/-- The `smartSourceExtraction` never returns an empty string. -/
lemma smartSourceExtraction_ne (t : String) : smartSourceExtraction t ≠ "" := by
  delta smartSourceExtraction
  repeat' apply ite_ne
  all_goals first
    | decide
    | exact serviceWordScan_ne _

/-- Unconditional membership through an `if`. -/
lemma mem_iteU {α : Type} {c : Prop} [Decidable c] {a b : α} {l : List α}
    (ha : a ∈ l) (hb : b ∈ l) : (if c then a else b) ∈ l := by
  by_cases h : c
  · rw [if_pos h]; exact ha
  · rw [if_neg h]; exact hb

/-- The values of the HTTP status table lie in the severity enum. -/
lemma httpTable_sub : ∀ x ∈ httpStatusSeverityList.map Prod.snd, x ∈ sevEnumList := by
  decide

/-- The values of the canonical system-error-code table lie in the enum. -/
lemma systemErrorCodes_sub :
    ∀ x ∈ systemErrorCodesList.map Prod.snd, x ∈ sevEnumList := by decide

/-- The values of the canonical database-pattern table lie in the enum. -/
lemma databasePatterns_sub :
    ∀ x ∈ databasePatternsList.map Prod.snd, x ∈ sevEnumList := by decide

/-- The values of the canonical business-pattern table lie in the enum. -/
lemma businessPatterns_sub :
    ∀ x ∈ businessPatternsList.map Prod.snd, x ∈ sevEnumList := by decide

/-- The range-based default of the HTTP branch stays in the enum. -/
lemma rangeDefault_mem (n : Int) :
    (if 200 ≤ n ∧ n < 300 then "success"
     else if 300 ≤ n ∧ n < 400 then "info"
     else if 400 ≤ n ∧ n < 500 then "warning"
     else if 500 ≤ n then "error"
     else "info") ∈ sevEnumList := by
  repeat' apply mem_iteU
  all_goals decide

/-- The duration buckets stay in the enum. -/
lemma perfBucket_mem (d : Int) :
    (if goMapGetIntD performanceThresholdsList "critical" 0 ≤ d then "critical"
     else if goMapGetIntD performanceThresholdsList "slow" 0 ≤ d then "warning"
     else if goMapGetIntD performanceThresholdsList "normal" 0 ≤ d then "info"
     else "success") ∈ sevEnumList := by
  repeat' apply mem_iteU
  all_goals decide

/-- The keyword/percentage tail of the cascade stays in the enum. -/
lemma keywordChain_mem (t : String) :
    (if containsAnyKeyword (goToLower t) errorKeywordsList then "error"
     else if containsAnyKeyword (goToLower t) warningKeywordsList then "warning"
     else if containsAnyKeyword (goToLower t) successKeywordsList then "success"
     else if containsAnyKeyword (goToLower t) debugKeywordsList then "debug"
     else if 90 < extractPercentage t "cpu" ∨ 90 < extractPercentage t "memory" ∨
             90 < extractPercentage t "disk" then "critical"
     else if 75 < extractPercentage t "cpu" ∨ 75 < extractPercentage t "memory" ∨
             75 < extractPercentage t "disk" then "warning"
     else "info") ∈ sevEnumList := by
  repeat' apply mem_iteU
  all_goals decide

/-- The severity cascade always lands in the six-value enum, for any
iteration orders whose table values lie in the enum. -/
lemma deriveSeverityOrd_mem (sysO dbO busO : List (String × String)) (t : String)
    (hs : ∀ x ∈ sysO.map Prod.snd, x ∈ sevEnumList)
    (hd : ∀ x ∈ dbO.map Prod.snd, x ∈ sevEnumList)
    (hb : ∀ x ∈ busO.map Prod.snd, x ∈ sevEnumList) :
    deriveSeverityOrd sysO dbO busO t ∈ sevEnumList := by
  delta deriveSeverityOrd
  apply mem_ite
  · intro _
    cases hgm : goMapGet httpStatusSeverityList (extractHTTPStatusCode t) with
    | some v => exact httpTable_sub v (goMapGet_mem hgm)
    | none => exact rangeDefault_mem _
  · intro _
    apply mem_ite
    · intro _; decide
    · intro _
      apply mem_ite
      · intro _; decide
      · intro _
        apply mem_ite
        · exact fun hne => hd _ (scanMapContains_mem_of_ne hne)
        · intro _
          apply mem_ite
          · exact fun hne => hs _ (scanMapContains_mem_of_ne hne)
          · intro _
            apply mem_ite
            · exact fun hne => hb _ (scanMapContains_mem_of_ne hne)
            · intro _
              cases hpm : extractPerformanceMetrics t with
              | some duration => exact perfBucket_mem duration
              | none => exact keywordChain_mem t

/-- The source cascade never returns an empty string. -/
lemma deriveSource_ne (header : LogHeader) (body : Body) (allText : String) :
    deriveSource header body allText ≠ "" := by
  delta deriveSource
  cases h1 : getNonEmptyStr body "service" with
  | some v => exact getNonEmptyStr_ne h1
  | none =>
  cases h2 : getNonEmptyStr body "source" with
  | some v => exact getNonEmptyStr_ne h2
  | none =>
  cases h3 : getNonEmptyStr body "component" with
  | some v => exact getNonEmptyStr_ne h3
  | none =>
  cases h4 : getNonEmptyStr body "app" with
  | some v => exact getNonEmptyStr_ne h4
  | none =>
  cases h5 : getNonEmptyStr body "module" with
  | some v => exact getNonEmptyStr_ne h5
  | none =>
  cases h6 : getNonEmptyStr body "origin" with
  | some v => exact getNonEmptyStr_ne h6
  | none =>
  apply ite_ne_cond
  · exact fun h => h
  · intro _
    apply ite_ne
    · repeat' apply ite_ne
      all_goals decide
    · exact smartSourceExtraction_ne _

/-- The category cascade never returns an empty string. -/
lemma deriveCategory_ne (dbOrd : List (String × String)) (header : LogHeader)
    (allText : String) : deriveCategory dbOrd header allText ≠ "" := by
  delta deriveCategory
  apply ite_ne_cond
  · exact fun h => goToLower_ne h
  · intro _
    apply ite_ne
    · decide
    · apply ite_ne
      · decide
      · apply ite_ne
        · decide
        · apply ite_ne
          · decide
          · apply ite_ne
            · decide
            · cases hpm : extractPerformanceMetrics allText with
              | some duration => exact ite_ne (by decide) (titleWordCategory_ne _)
              | none => exact titleWordCategory_ne _

/-! ## Claim theorems -/

/-- Claim C1: for every (header, body) pair whose header title is
non-empty, `deriveMetadata` returns a DerivedSeverity that is one of the
six enum values critical/error/warning/success/debug/info, and returns
DerivedSource and DerivedCategory strings that are both non-empty. -/
theorem C1_derived_metadata_total (header : LogHeader) (body : Body)
    (_htitle : header.Title ≠ "") :
    (deriveMetadata header body).DerivedSeverity ∈ sevEnumList ∧
    (deriveMetadata header body).DerivedSource ≠ "" ∧
    (deriveMetadata header body).DerivedCategory ≠ "" :=
  ⟨deriveSeverityOrd_mem _ _ _ _ systemErrorCodes_sub databasePatterns_sub
      businessPatterns_sub,
   deriveSource_ne _ _ _, deriveCategory_ne _ _ _⟩

/-- Witness for claim C1 at a concrete input. -/
theorem C1_witness :
    (deriveMetadata ⟨"", "x", "", "", ""⟩ []).DerivedSeverity ∈ sevEnumList ∧
    (deriveMetadata ⟨"", "x", "", "", ""⟩ []).DerivedSource ≠ "" ∧
    (deriveMetadata ⟨"", "x", "", "", ""⟩ []).DerivedCategory ≠ "" :=
  C1_derived_metadata_total ⟨"", "x", "", "", ""⟩ [] (by decide)

/-- Claim C10: the category-based default branch of
`deriveColorFromSeverity` is unreachable — the derived severity is always
one of the six handled values, so the auto-assigned color is always the
one given by the severity→color switch alone. -/
theorem C10_color_switch_total (header : LogHeader) (body : Body) :
    (deriveMetadata header body).DerivedSeverity ∈ sevEnumList ∧
    deriveColorFromSeverity header body =
      severitySwitchColor (deriveMetadata header body).DerivedSeverity := by
  have hm : (deriveMetadata header body).DerivedSeverity ∈ sevEnumList :=
    deriveSeverityOrd_mem _ _ _ _ systemErrorCodes_sub databasePatterns_sub
      businessPatterns_sub
  refine ⟨hm, ?_⟩
  have h6 : (deriveMetadata header body).DerivedSeverity = "critical" ∨
      (deriveMetadata header body).DerivedSeverity = "error" ∨
      (deriveMetadata header body).DerivedSeverity = "warning" ∨
      (deriveMetadata header body).DerivedSeverity = "success" ∨
      (deriveMetadata header body).DerivedSeverity = "debug" ∨
      (deriveMetadata header body).DerivedSeverity = "info" := by
    simpa [sevEnumList] using hm
  delta deriveColorFromSeverity severitySwitchColor
  rcases h6 with h | h | h | h | h | h <;> (rw [h]; rfl)

/-- The 22 valid color names as listed by the claim. -/
def claimValidColorNames : List String :=
  ["slate", "gray", "zinc", "neutral", "stone", "red", "orange", "amber", "yellow",
   "lime", "green", "emerald", "teal", "cyan", "sky", "blue", "indigo", "violet",
   "purple", "fuchsia", "pink", "rose"]

/-- A Go `map[string]bool` lookup whose stored values are all `true` is the
membership test on its keys. -/
lemma goMapGetBoolD_allTrue (l : List (String × Bool))
    (hall : ∀ p ∈ l, p.2 = true) (c : String) :
    (goMapGetBoolD l c false = true ↔ c ∈ l.map Prod.fst) := by
  induction l with
  | nil => simp [goMapGetBoolD]
  | cons p rest ih =>
    obtain ⟨k, v⟩ := p
    have hv : v = true := hall (k, v) (List.mem_cons_self _ _)
    have hrest : ∀ q ∈ rest, q.2 = true := fun q hq => hall q (List.mem_cons_of_mem _ hq)
    subst hv
    by_cases hk : k == c
    · have hkc : k = c := by simpa using hk
      subst hkc
      simp [goMapGetBoolD]
    · have hne : k ≠ c := by simpa using hk
      simp [goMapGetBoolD, hk, ih hrest, Ne.symm hne]

/-- Claim C7: `validateLogHeader` rejects a header exactly when its title
is empty or its color is a non-empty string outside the valid color set; a
header with only a non-empty title passes; and `isValidTailwindColor` is
true exactly for the 22 listed color names. -/
theorem C7_validation (header₀ : LogHeader) (c₀ : String) :
    ((validateLogHeader header₀).isSome =
      (header₀.Title == "" || (header₀.Color != "" && !isValidTailwindColor header₀.Color))) ∧
    (isValidTailwindColor c₀ = true ↔ c₀ ∈ claimValidColorNames) ∧
    validateLogHeader ⟨"", "deploy", "", "", ""⟩ = none := by
  refine ⟨?_, ?_, by decide⟩
  · by_cases h1 : header₀.Title = ""
    · simp [validateLogHeader, h1]
    · by_cases h2 : header₀.Color = ""
      · simp [validateLogHeader, h1, h2]
      · by_cases h3 : isValidTailwindColor header₀.Color
        · simp [validateLogHeader, h1, h2, h3]
        · simp [validateLogHeader, h1, h2, h3]
  · have h := goMapGetBoolD_allTrue tailwindColorsList (by decide) c₀
    have hmap : tailwindColorsList.map Prod.fst = claimValidColorNames := by decide
    rw [hmap] at h
    exact h

/-- Claim C2: a text containing both an error keyword and a success
keyword, on which no higher-priority detector fires (no HTTP status, stack
trace, security phrase, database phrase, system error code, business
phrase, or performance metric), derives severity "error". -/
theorem C2_error_keyword_priority (header : LogHeader) (body : Body)
    (herr : containsAnyKeyword (goToLower (allTextOf header body)) errorKeywordsList = true)
    (_hsucc : containsAnyKeyword (goToLower (allTextOf header body)) successKeywordsList = true)
    (hhttp : extractHTTPStatusCode (allTextOf header body) = "")
    (hst : hasStackTrace (allTextOf header body) = false)
    (hsec : detectSecurityIssue (allTextOf header body) = false)
    (hdb : detectDatabaseIssue (allTextOf header body) = "")
    (hsys : detectSystemError (allTextOf header body) = "")
    (hbus : detectBusinessLogic (allTextOf header body) = "")
    (hperf : extractPerformanceMetrics (allTextOf header body) = none) :
    (deriveMetadata header body).DerivedSeverity = "error" := by
  simp only [detectDatabaseIssue] at hdb
  simp only [detectSystemError] at hsys
  simp only [detectBusinessLogic] at hbus
  show deriveSeverityOrd systemErrorCodesList databasePatternsList businessPatternsList
      (allTextOf header body) = "error"
  delta deriveSeverityOrd
  rw [if_neg (by simp [hhttp]), if_neg (by simp [hst]), if_neg (by simp [hsec]),
      if_neg (by simp [hdb]), if_neg (by simp [hsys]), if_neg (by simp [hbus])]
  simp only [hperf]
  rw [if_pos herr]

/-- Witness for claim C2: the claim's own example text derives "error". -/
theorem C2_witness :
    (deriveMetadata
      ⟨"", "error detected but operation completed successfully", "", "", ""⟩
      []).DerivedSeverity = "error" :=
  C2_error_keyword_priority _ _ (by decide) (by decide) (by decide) (by decide)
    (by decide) (by decide) (by decide) (by decide) (by decide)

/-- Claim C3 counterexample: a text with a stack-trace indicator but also
an extractable HTTP status code does not derive "error" — the HTTP branch
outranks the stack-trace branch ("status 204 at line 3" derives
"success"). -/
theorem C3_counterexample :
    hasStackTrace (allTextOf ⟨"", "status 204 at line 3", "", "", ""⟩ []) = true ∧
    (deriveMetadata ⟨"", "status 204 at line 3", "", "", ""⟩ []).DerivedSeverity
      = "success" ∧
    (deriveMetadata ⟨"", "status 204 at line 3", "", "", ""⟩ []).DerivedSeverity
      ≠ "error" := by
  refine ⟨by decide, by decide, by decide⟩

/-- Claim C3 (amended): for every input in which `hasStackTrace` is true
and no HTTP status code is extracted, `deriveMetadata` assigns severity
"error". -/
theorem C3_stack_trace_error (header : LogHeader) (body : Body)
    (hst : hasStackTrace (allTextOf header body) = true)
    (hhttp : extractHTTPStatusCode (allTextOf header body) = "") :
    (deriveMetadata header body).DerivedSeverity = "error" := by
  show deriveSeverityOrd systemErrorCodesList databasePatternsList businessPatternsList
      (allTextOf header body) = "error"
  delta deriveSeverityOrd
  rw [if_neg (by simp [hhttp]), if_pos hst]

/-- Witness for the amended claim C3. -/
theorem C3_witness :
    (deriveMetadata ⟨"", "panic: boom", "", "", ""⟩ []).DerivedSeverity = "error" :=
  C3_stack_trace_error _ _ (by decide) (by decide)

/-- Claim C4: whenever `extractHTTPStatusCode` finds a status code in the
combined text, `deriveMetadata` assigns the severity given by the status
table, and for any extracted code not in the table it assigns the range
default 200–299→success, 300–399→info, 400–499→warning, ≥500→error. -/
theorem C4_http_status_severity (header : LogHeader) (body : Body)
    (hne : extractHTTPStatusCode (allTextOf header body) ≠ "") :
    (∀ v, goMapGet httpStatusSeverityList (extractHTTPStatusCode (allTextOf header body))
        = some v → (deriveMetadata header body).DerivedSeverity = v) ∧
    (goMapGet httpStatusSeverityList (extractHTTPStatusCode (allTextOf header body))
        = none →
      ((200 ≤ goAtoi (extractHTTPStatusCode (allTextOf header body)) ∧
          goAtoi (extractHTTPStatusCode (allTextOf header body)) < 300 →
          (deriveMetadata header body).DerivedSeverity = "success") ∧
       (300 ≤ goAtoi (extractHTTPStatusCode (allTextOf header body)) ∧
          goAtoi (extractHTTPStatusCode (allTextOf header body)) < 400 →
          (deriveMetadata header body).DerivedSeverity = "info") ∧
       (400 ≤ goAtoi (extractHTTPStatusCode (allTextOf header body)) ∧
          goAtoi (extractHTTPStatusCode (allTextOf header body)) < 500 →
          (deriveMetadata header body).DerivedSeverity = "warning") ∧
       (500 ≤ goAtoi (extractHTTPStatusCode (allTextOf header body)) →
          (deriveMetadata header body).DerivedSeverity = "error"))) := by
  constructor
  · intro v hv
    show deriveSeverityOrd systemErrorCodesList databasePatternsList businessPatternsList
        (allTextOf header body) = v
    delta deriveSeverityOrd
    rw [if_pos hne, hv]
  · intro hnone
    have hsev : (deriveMetadata header body).DerivedSeverity =
        (if 200 ≤ goAtoi (extractHTTPStatusCode (allTextOf header body)) ∧
            goAtoi (extractHTTPStatusCode (allTextOf header body)) < 300 then "success"
         else if 300 ≤ goAtoi (extractHTTPStatusCode (allTextOf header body)) ∧
            goAtoi (extractHTTPStatusCode (allTextOf header body)) < 400 then "info"
         else if 400 ≤ goAtoi (extractHTTPStatusCode (allTextOf header body)) ∧
            goAtoi (extractHTTPStatusCode (allTextOf header body)) < 500 then "warning"
         else if 500 ≤ goAtoi (extractHTTPStatusCode (allTextOf header body)) then "error"
         else "info") := by
      show deriveSeverityOrd systemErrorCodesList databasePatternsList businessPatternsList
          (allTextOf header body) = _
      delta deriveSeverityOrd
      rw [if_pos hne, hnone]
    refine ⟨fun hc => ?_, fun hc => ?_, fun hc => ?_, fun hc => ?_⟩
    · rw [hsev, if_pos hc]
    · rw [hsev, if_neg (by omega), if_pos hc]
    · rw [hsev, if_neg (by omega), if_neg (by omega), if_pos hc]
    · rw [hsev, if_neg (by omega), if_neg (by omega), if_neg (by omega), if_pos hc]

/-- Witness for claim C4: "status 503" hits the table entry 503→critical. -/
theorem C4_witness :
    extractHTTPStatusCode (allTextOf ⟨"", "status 503", "", "", ""⟩ []) ≠ "" ∧
    (deriveMetadata ⟨"", "status 503", "", "", ""⟩ []).DerivedSeverity = "critical" :=
  ⟨by decide,
   (C4_http_status_severity ⟨"", "status 503", "", "", ""⟩ [] (by decide)).1
     "critical" (by decide)⟩

/-- Claim C5 counterexample: with text "took 500 ms" no higher-priority
detector fires and a 500 ms duration is extracted; the claim's buckets
("below 100 ms → success, below 1000 ms → info") demand "info", but the
code derives "success" (its comparisons are `duration ≥ threshold`, so
everything under 1000 ms is "success" and the 100 ms "fast" threshold is
never used). -/
theorem C5_counterexample :
    extractPerformanceMetrics (allTextOf ⟨"", "took 500 ms", "", "", ""⟩ []) = some 500 ∧
    extractHTTPStatusCode (allTextOf ⟨"", "took 500 ms", "", "", ""⟩ []) = "" ∧
    hasStackTrace (allTextOf ⟨"", "took 500 ms", "", "", ""⟩ []) = false ∧
    detectSecurityIssue (allTextOf ⟨"", "took 500 ms", "", "", ""⟩ []) = false ∧
    detectDatabaseIssue (allTextOf ⟨"", "took 500 ms", "", "", ""⟩ []) = "" ∧
    detectSystemError (allTextOf ⟨"", "took 500 ms", "", "", ""⟩ []) = "" ∧
    detectBusinessLogic (allTextOf ⟨"", "took 500 ms", "", "", ""⟩ []) = "" ∧
    ¬((500 : Int) < 100) ∧ (500 : Int) < 1000 ∧
    (deriveMetadata ⟨"", "took 500 ms", "", "", ""⟩ []).DerivedSeverity = "success" ∧
    ("success" : String) ≠ "info" := by
  refine ⟨?_, ?_, ?_, ?_, ?_, ?_, ?_, ?_, ?_, ?_, ?_⟩ <;> decide

/-- Claim C5 (amended): when no higher-priority detector fires and a
duration d is extracted, the code buckets it as d ≥ 5000 → critical,
3000 ≤ d < 5000 → warning, 1000 ≤ d < 3000 → info, d < 1000 → success. -/
theorem C5_performance_buckets (header : LogHeader) (body : Body) (d : Int)
    (hhttp : extractHTTPStatusCode (allTextOf header body) = "")
    (hst : hasStackTrace (allTextOf header body) = false)
    (hsec : detectSecurityIssue (allTextOf header body) = false)
    (hdb : detectDatabaseIssue (allTextOf header body) = "")
    (hsys : detectSystemError (allTextOf header body) = "")
    (hbus : detectBusinessLogic (allTextOf header body) = "")
    (hperf : extractPerformanceMetrics (allTextOf header body) = some d) :
    (5000 ≤ d → (deriveMetadata header body).DerivedSeverity = "critical") ∧
    (3000 ≤ d ∧ d < 5000 → (deriveMetadata header body).DerivedSeverity = "warning") ∧
    (1000 ≤ d ∧ d < 3000 → (deriveMetadata header body).DerivedSeverity = "info") ∧
    (d < 1000 → (deriveMetadata header body).DerivedSeverity = "success") := by
  simp only [detectDatabaseIssue] at hdb
  simp only [detectSystemError] at hsys
  simp only [detectBusinessLogic] at hbus
  have hsev : (deriveMetadata header body).DerivedSeverity =
      (if goMapGetIntD performanceThresholdsList "critical" 0 ≤ d then "critical"
       else if goMapGetIntD performanceThresholdsList "slow" 0 ≤ d then "warning"
       else if goMapGetIntD performanceThresholdsList "normal" 0 ≤ d then "info"
       else "success") := by
    show deriveSeverityOrd systemErrorCodesList databasePatternsList businessPatternsList
        (allTextOf header body) = _
    delta deriveSeverityOrd
    rw [if_neg (by simp [hhttp]), if_neg (by simp [hst]), if_neg (by simp [hsec]),
        if_neg (by simp [hdb]), if_neg (by simp [hsys]), if_neg (by simp [hbus])]
    simp only [hperf]
  have hcrit : goMapGetIntD performanceThresholdsList "critical" 0 = 5000 := by decide
  have hslow : goMapGetIntD performanceThresholdsList "slow" 0 = 3000 := by decide
  have hnorm : goMapGetIntD performanceThresholdsList "normal" 0 = 1000 := by decide
  rw [hcrit, hslow, hnorm] at hsev
  refine ⟨fun hc => ?_, fun hc => ?_, fun hc => ?_, fun hc => ?_⟩
  · rw [hsev, if_pos hc]
  · rw [hsev, if_neg (by omega), if_pos (by omega)]
  · rw [hsev, if_neg (by omega), if_neg (by omega), if_pos (by omega)]
  · rw [hsev, if_neg (by omega), if_neg (by omega), if_neg (by omega)]

/-- Witness for the amended claim C5: "took 6000 ms" derives "critical". -/
theorem C5_witness :
    (deriveMetadata ⟨"", "took 6000 ms", "", "", ""⟩ []).DerivedSeverity = "critical" :=
  (C5_performance_buckets ⟨"", "took 6000 ms", "", "", ""⟩ [] 6000 (by decide) (by decide)
    (by decide) (by decide) (by decide) (by decide) (by decide)).1 (by decide)

/-- An alternative iteration order of the `systemErrorCodes` map, with
`ENOMEM` visited first; Go's randomized map iteration makes any
permutation a possible execution. -/
def sysErrOrderAlt : List (String × String) :=
  [("ENOMEM", "critical"),
   ("ECONNREFUSED", "error"), ("ETIMEDOUT", "error"), ("ENOTFOUND", "error"),
   ("ECONNRESET", "error"), ("EPIPE", "error"), ("EACCES", "error"),
   ("ENOENT", "warning"), ("EISDIR", "error"), ("EMFILE", "critical"),
   ("ENOSPC", "critical"), ("EIO", "critical"), ("EROFS", "error")]

/-- Claim C6 (code bug): `deriveMetadata` is not a function of the inputs
alone — `detectSystemError` ranges over a Go map, and for the input
"ENOENT ENOMEM" two legitimate iteration orders (the two lists below are
permutations of the same map) yield severities "warning" and "critical"
respectively, so two invocations on identical inputs can differ. -/
theorem C6_map_iteration_order_dependence :
    List.Perm systemErrorCodesList sysErrOrderAlt ∧
    (deriveMetadata ⟨"", "ENOENT ENOMEM", "", "", ""⟩ []).DerivedSeverity = "warning" ∧
    (deriveMetadataOrd sysErrOrderAlt databasePatternsList businessPatternsList
        ⟨"", "ENOENT ENOMEM", "", "", ""⟩ []).DerivedSeverity = "critical" := by
  refine ⟨by decide, by decide, by decide⟩

/-- Claim C9 counterexample: at ingest with body
{service:"svc-a", source:"src-b"} (and empty header source), the claim's
cascade order (service first) picks "svc-a", but the code's
`deriveSourceFromBody` probes `source` first and auto-fills "src-b". -/
theorem C9_counterexample :
    firstNonEmptyField [("service", JVal.jstr "svc-a"), ("source", JVal.jstr "src-b")]
        claimC9FieldOrder = some "svc-a" ∧
    autoFillSource ⟨"", "t", "", "", ""⟩
        [("service", JVal.jstr "svc-a"), ("source", JVal.jstr "src-b")] = "src-b" ∧
    ("src-b" : String) ≠ "svc-a" := by
  refine ⟨by decide, by decide, by decide⟩

/-- Claim C9 (amended): when the header source is empty at ingest, the
explicit body fields are checked in the order source, service, component,
app, application, module, system, and the first non-empty string among
them wins before any nested-metadata lookup or content-based fallback is
consulted. -/
theorem C9_source_cascade (header : LogHeader) (body : Body) (s : String)
    (hempty : header.Source = "")
    (hfield : firstNonEmptyField body sourceFieldsList = some s) :
    autoFillSource header body = s := by
  delta autoFillSource
  rw [if_pos hempty]
  delta deriveSourceFromBody
  rw [hfield]

/-- Witness for the amended claim C9. -/
theorem C9_witness :
    autoFillSource ⟨"", "t", "", "", ""⟩ [("source", JVal.jstr "api")] = "api" :=
  C9_source_cascade _ _ _ (by decide) (by decide)

/-- Claim C8: `error_rate_24h` is the last-24h error count over the
last-24h total, times 100, formatted to one decimal with a percent sign
("0.0%" when the window is empty); the "High error rate detected" alert is
appended exactly when the rate exceeds 20 percent (equivalently, when
100·errors > 20·total with a non-empty window); and 1 error among 3
entries in the window formats as "33.3%". -/
theorem C8_error_rate_24h :
    (∀ (entries : List StoredEntry) (cut : Int),
      (statsErrorRateBlock entries cut).1 =
        (if statsLast24Count entries cut = 0 then "0.0%"
         else goFmt1f (100 * (statsErrorCount24h entries cut : ℚ) /
            (statsLast24Count entries cut : ℚ)) ++ "%")) ∧
    (∀ (entries : List StoredEntry) (cut : Int),
      ((statsErrorRateBlock entries cut).2 ≠ [] ↔
        0 < statsLast24Count entries cut ∧
        20 * statsLast24Count entries cut < 100 * statsErrorCount24h entries cut)) ∧
    (statsErrorRateBlock [⟨"error", 5⟩, ⟨"info", 6⟩, ⟨"success", 7⟩] 0).1 = "33.3%" := by
  refine ⟨?_, ?_, ?_⟩
  · intro entries cut
    delta statsErrorRateBlock
    by_cases h : 0 < statsLast24Count entries cut
    · rw [if_pos h, if_neg (show ¬(statsLast24Count entries cut = 0) by omega)]
      show goFmt1f ((statsErrorCount24h entries cut : ℚ) /
        (statsLast24Count entries cut : ℚ) * 100) ++ "%" = _
      congr 2
      ring
    · rw [if_neg h, if_pos (show statsLast24Count entries cut = 0 by omega)]
  · intro entries cut
    delta statsErrorRateBlock
    by_cases h : 0 < statsLast24Count entries cut
    · rw [if_pos h]
      have hn : (0 : ℚ) < (statsLast24Count entries cut : ℚ) := by exact_mod_cast h
      by_cases hr : 20 < (statsErrorCount24h entries cut : ℚ) /
          (statsLast24Count entries cut : ℚ) * 100
      · rw [if_pos hr]
        simp only [ne_eq, List.cons_ne_nil, not_false_eq_true, true_iff]
        refine ⟨h, ?_⟩
        rw [div_mul_eq_mul_div, lt_div_iff₀ hn] at hr
        have h21 : 20 * (statsLast24Count entries cut : ℚ) <
            100 * (statsErrorCount24h entries cut : ℚ) := by linarith
        exact_mod_cast h21
      · rw [if_neg hr]
        simp only [ne_eq, not_true_eq_false, false_iff, not_and]
        intro _ hlt
        apply hr
        rw [div_mul_eq_mul_div, lt_div_iff₀ hn]
        have h21 : (20 * statsLast24Count entries cut : ℚ) <
            (100 * statsErrorCount24h entries cut : ℚ) := by exact_mod_cast hlt
        push_cast at h21 ⊢
        linarith
    · rw [if_neg h]
      simp only [ne_eq, not_true_eq_false, false_iff, not_and]
      intro h0
      exact absurd h0 h
  · have hc1 : statsErrorCount24h [⟨"error", 5⟩, ⟨"info", 6⟩, ⟨"success", 7⟩] 0 = 1 := by
      decide
    have hc3 : statsLast24Count [⟨"error", 5⟩, ⟨"info", 6⟩, ⟨"success", 7⟩] 0 = 3 := by
      decide
    delta statsErrorRateBlock
    rw [hc1, hc3, if_pos (show (0 : ℕ) < 3 by norm_num)]
    have hfloor : ⌊(1000 / 3 : ℚ)⌋ = 333 := by
      rw [show (1000 / 3 : ℚ) = 333 + 1 / 3 by norm_num, Int.floor_eq_iff]
      constructor <;> norm_num
    have hrnd : roundHalfEvenQ (1000 / 3 : ℚ) = 333 := by
      norm_num [roundHalfEvenQ, hfloor]
    show goFmt1f (((1 : ℕ) : ℚ) / ((3 : ℕ) : ℚ) * 100) ++ "%" = "33.3%"
    rw [show (((1 : ℕ) : ℚ) / ((3 : ℕ) : ℚ) * 100 : ℚ) = 100 / 3 by norm_num]
    simp only [goFmt1f]
    rw [show ((100 : ℚ) / 3 * 10 : ℚ) = 1000 / 3 by norm_num, hrnd]
    decide
